import Mathlib

/-! Shallow embedding of the MS260i spectrometer driver
    (files spectrometerClass.py and spec_command.py).

    Modelling conventions:
    * Python floats are modelled as exact rationals.  Python guarantees an
      exact str/float round-trip, so a numeric payload that the driver
      prints with str and immediately re-parses with float is carried as
      the same rational.
    * A Python exception is an explicit error value (PyErr); in particular
      a ZeroDivisionError raised by convert surfaces as an error, never as
      an IEEE infinity.
    * The USB device is an abstract state machine (Instr): write consumes
      one transmitted line, read yields the response to the most recently
      written query.  The status-poll loop of giveCommand is given
      explicit fuel; exhausting the fuel yields the result Res.spin,
      meaning the call is still blocked inside the loop.
-/

namespace Spectro

/-- Python exceptions that the embedded driver code can raise. -/
inductive PyErr where
  | indexError
  | valueError
  | zeroDivisionError
deriving DecidableEq

/-- A Python value sitting in a unit position: either a string, or the
    integer 0 sentinel that getUnits returns for an unrecognized unit. -/
inductive PyU where
  | str (s : String)
  | zero
deriving DecidableEq

/-- A line transmitted to the instrument.  The constructor gowave stands
    for the rebuilt string "gowave " ++ str(q); the payload is kept as an
    exact rational because the simulated instrument parses it back and the
    Python str/float round-trip is exact. -/
inductive Wire where
  | raw (s : String)
  | gowave (q : ℚ)
deriving DecidableEq

/-- A response line read back from the instrument: either a plain string,
    or a numeric string str(q) carried as the exact rational q. -/
inductive Resp where
  | str (s : String)
  | num (q : ℚ)
deriving DecidableEq

/-- A Python value passed to setGrating or validGratingInput: an int, a
    string, a float, or some other object on which int() raises. -/
inductive GIn where
  | int (n : ℤ)
  | str (s : String)
  | float (q : ℚ)
  | other
deriving DecidableEq

/-- A Python value passed to setAuto: a bool, or any other object. -/
inductive AIn where
  | bool (b : Bool)
  | other
deriving DecidableEq

/-- Strip leading and trailing whitespace characters: the whitespace
    tolerance of the Python int and float constructors. -/
def pyTrim (s : String) : List Char :=
  ((s.data.dropWhile Char.isWhitespace).reverse.dropWhile Char.isWhitespace).reverse

/-- Split a character list at every occurrence of the given separator,
    keeping empty pieces: Python str.split(sep) with an explicit
    one-character separator. -/
def splitSepAux (sep : Char) : List Char → List Char → List (List Char)
  | [], acc => [acc.reverse]
  | c :: cs, acc =>
    if c = sep then acc.reverse :: splitSepAux sep cs []
    else splitSepAux sep cs (c :: acc)

/-- Python s.split(sep) for a one-character separator. -/
def pySplitSep (sep : Char) (s : String) : List String :=
  (splitSepAux sep s.data []).map List.asString

/-- Accumulate decimal digits; fails on the first non-digit character.
    Models the digit scan inside the Python int and float constructors. -/
def digitsToNatAux : List Char → ℕ → Option ℕ
  | [], acc => some acc
  | c :: cs, acc =>
    if c.isDigit then digitsToNatAux cs (acc * 10 + (c.toNat - 48))
    else none

/-- Value of a nonempty all-digit character list. -/
def digitsToNat (l : List Char) : Option ℕ :=
  if l = [] then none else digitsToNatAux l 0

/-- Python int(s) for a string s: optional surrounding whitespace, an
    optional sign, then decimal digits; anything else raises ValueError
    (modelled as none). -/
def pyIntOfStr (s : String) : Option ℤ :=
  match pyTrim s with
  | '-' :: rest => (digitsToNat rest).map fun n => -(n : ℤ)
  | '+' :: rest => (digitsToNat rest).map fun n => (n : ℤ)
  | l => (digitsToNat l).map fun n => (n : ℤ)

/-- Python float(s) for the decimal fragment the driver can meet: optional
    surrounding whitespace, optional sign, digits with an optional single
    decimal point.  Exponent forms never arise in the embedded scenarios. -/
def pyFloat (s : String) : Option ℚ :=
  let go : List Char → Option ℚ := fun l =>
    match splitSepAux '.' l [] with
    | [ip] => (digitsToNat ip).map fun n => (n : ℚ)
    | [ip, fp] =>
      if ip = [] ∧ fp = [] then none
      else
        match digitsToNatAux ip 0, digitsToNatAux fp 0 with
        | some n, some f => some ((n : ℚ) + (f : ℚ) / 10 ^ fp.length)
        | _, _ => none
    | _ => none
  match pyTrim s with
  | '-' :: rest => (go rest).map Neg.neg
  | '+' :: rest => go rest
  | l => go l

/-- Truncation toward zero, the behaviour of Python int() on a float. -/
def truncQ (q : ℚ) : ℤ := if 0 ≤ q then ⌊q⌋ else ⌈q⌉

/-- Python int(x) on a setGrating argument; none models a raised
    ValueError or TypeError. -/
def pyInt : GIn → Option ℤ
  | .int n => some n
  | .str s => pyIntOfStr s
  | .float q => some (truncQ q)
  | .other => none

/-- Python str(x) on a setGrating argument, used only to build the text of
    a "grat" command.  The float case prints the rational with the Lean
    printer; the exact digits differ from Python but the resulting string
    is only ever treated as an opaque token. -/
def pyStr : GIn → String
  | .int n => toString n
  | .str s => s
  | .float q => toString q
  | .other => "<object>"

/-- Split a character list on whitespace runs, dropping empty pieces:
    the behaviour of the Python str.split() with no arguments. -/
def wsSplitAux : List Char → List Char → List (List Char)
  | [], acc => if acc = [] then [] else [acc.reverse]
  | c :: cs, acc =>
    if c.isWhitespace then
      if acc = [] then wsSplitAux cs []
      else acc.reverse :: wsSplitAux cs []
    else wsSplitAux cs (c :: acc)

/-- Python string.split() with no arguments. -/
def pySplit (s : String) : List String :=
  (wsSplitAux s.data []).map List.asString

/-- Python str.lower(), character by character. -/
def pyLower (s : String) : String := (s.data.map Char.toLower).asString

/-- The last character of a string, Python string[-1].  Call sites only
    reach it with a nonempty string (the split already succeeded). -/
def lastChar (s : String) : Char := s.data.getLastD ' '

/-- Boolean list-prefix test. -/
def isPrefOf : List Char → List Char → Bool
  | [], _ => true
  | _ :: _, [] => false
  | a :: as, b :: bs => a = b && isPrefOf as bs

/-- Boolean list-infix test. -/
def isInfOf (n : List Char) : List Char → Bool
  | [] => isPrefOf n []
  | c :: t => isPrefOf n (c :: t) || isInfOf n t

/-- Python substring test "32" in s. -/
def contains32 (s : String) : Bool := isInfOf ['3', '2'] s.data

/-- The loop guard of the motion wait in giveCommand:
    the Python test ("00" == sb or "32" in sb). -/
def statusDone (r : Resp) : Bool :=
  match r with
  | .str s => s = "00" || contains32 s
  | .num _ => false

/-- Python float() applied to a response value; none models ValueError. -/
def respFloat : Resp → Option ℚ
  | .str s => pyFloat s
  | .num q => some q

/-- The constant attribute self.units = ["nm", "um", "wn"]. -/
def unitsList : List String := ["nm", "um", "wn"]

/-- Spectrometer.convert, line for line.  The argument u is the source
    unit, c the target unit; either may be the int 0 sentinel (PyU.zero),
    which matches none of the string comparisons.  A division by zero is a
    raised ZeroDivisionError, modelled as none. -/
def convert (w : ℚ) (u c : PyU) : Option ℚ :=
  let s1 : Option ℚ :=
    if u = PyU.str "um" then some (w * 10 ^ 3)
    else if u = PyU.str "wn" then
      if w = 0 then none else some (10 ^ 7 / w)
    else some w
  match s1 with
  | none => none
  | some w =>
    if c = PyU.str "nm" then some w
    else if c = PyU.str "um" then some (w / 10 ^ 3)
    else if w = 0 then none else some (10 ^ 7 / w)

/-- The auto-grating selection policy applied by setWavelength to the
    target expressed in nanometers. -/
def autoGrating (nw : ℚ) : ℤ :=
  if nw < 430 then 1 else if nw > 625 then 3 else 2

/-- Spectrometer.validGratingInput: true when int() succeeds on the input
    and the value lies strictly between 0 and 4. -/
def validGratingInput (grat : GIn) : Bool :=
  match pyInt grat with
  | some g => decide (0 < g) && decide (g < 4)
  | none => false

/-- Abstract instrument on device state σ.  write is the effect of
    dev.write of one encoded line (the trailing newline added by encode is
    immaterial and omitted); read yields the response that dev.read
    returns after the most recent write of a query line. -/
structure Instr (σ : Type) where
  write : σ → Wire → σ
  read : σ → Resp

/-- The mutable attributes of the Spectrometer object: the device handle,
    the cached unit self.unit, and the auto-grating flag self.auto. -/
structure SpecState (σ : Type) where
  dev : σ
  unit : PyU
  auto : Bool
deriving DecidableEq

/-- Result of running a driver method: a normal return with the updated
    object state, a raised Python exception, or spin, meaning the fuel of
    the status-poll loop ran out with the call still blocked (the real
    loop has no bound, so spin at every fuel witnesses nontermination). -/
inductive Res (σ α : Type) where
  | ok (st : σ) (val : α)
  | err (e : PyErr) (st : σ)
  | spin (st : σ)
deriving DecidableEq

/-- Sequencing of driver steps: exceptions and a blocked poll propagate. -/
def Res.bind {σ α β : Type} : Res σ α → (σ → α → Res σ β) → Res σ β
  | .ok st a, f => f st a
  | .err e st, _ => .err e st
  | .spin st, _ => .spin st

/-- The returned value of a run, when it returned normally. -/
def Res.val? {σ α : Type} : Res σ α → Option α
  | .ok _ a => some a
  | _ => none

/-- The object state a run ended in (also for raised or blocked runs). -/
def Res.state {σ α : Type} : Res σ α → σ
  | .ok st _ => st
  | .err _ st => st
  | .spin st => st

/-- True when the run is still blocked inside the status-poll loop. -/
def Res.isSpin {σ α : Type} : Res σ α → Bool
  | .spin _ => true
  | _ => false

/-- A command handed to giveCommand.  raw s is an arbitrary string (the
    CLI path hands the operator line over verbatim).  gowave q denotes the
    string "gowave " ++ str(q) that setWavelength builds; since the
    Python str/float round-trip is exact, giveCommand re-parsing that
    string recovers exactly q. -/
inductive Cmd where
  | raw (s : String)
  | gowave (q : ℚ)
deriving DecidableEq

/-- The motion wait at the end of giveCommand for a non-query command:

      sb = self.getStatusByte()
      while not ("00" == sb or "32" in sb):
          sb = self.getStatusByte()

    Each iteration performs exactly what the recursive call
    giveCommand("stb?") performs: write the query line, read the reply.
    The real loop is unbounded; fuel 0 yields spin (still blocked). -/
def pollWait {σ : Type} (M : Instr σ) : ℕ → SpecState σ → Res (SpecState σ) (Option Resp)
  | 0, st => .spin st
  | fuel + 1, st =>
    let dev := M.write st.dev (.raw "stb?")
    let sb := M.read dev
    let st := { st with dev := dev }
    if statusDone sb then .ok st none else pollWait M fuel st

/-- Spectrometer.giveCommand.  The first whitespace token selects the
    branch: "gowave" re-parses the numeric payload, adds the calibration
    offset 73 and transmits the rebuilt line (which ends in a digit, never
    in the query marker), then falls into the motion wait; a line ending
    in "?" is transmitted and one response is read back, with the "wave?"
    response corrected by subtracting the offset converted into the cached
    unit; any other line is transmitted and the motion wait runs.  An
    empty token list raises IndexError before anything is transmitted. -/
def giveCommand {σ : Type} (M : Instr σ) (fuel : ℕ) (st : SpecState σ) :
    Cmd → Res (SpecState σ) (Option Resp)
  | .gowave q =>
    let st := { st with dev := M.write st.dev (.gowave (q + 73)) }
    pollWait M fuel st
  | .raw s =>
    match pySplit s with
    | [] => .err .indexError st
    | command :: rest =>
      if command = "gowave" then
        match rest with
        | [] => .err .indexError st
        | v :: _ =>
          match pyFloat v with
          | none => .err .valueError st
          | some value =>
            let st := { st with dev := M.write st.dev (.gowave (value + 73)) }
            pollWait M fuel st
      else
        let subtract := command = "wave?"
        let st := { st with dev := M.write st.dev (.raw s) }
        if lastChar s = '?' then
          let r := M.read st.dev
          if subtract then
            match respFloat r with
            | none => .err .valueError st
            | some rv =>
              match convert 73 (.str "nm") st.unit with
              | none => .err .zeroDivisionError st
              | some off => .ok st (some (.num (rv - off)))
          else .ok st (some r)
        else
          pollWait M fuel st

/-- Spectrometer.getStatusByte: giveCommand("stb?"). -/
def getStatusByte {σ : Type} (M : Instr σ) (fuel : ℕ) (st : SpecState σ) :
    Res (SpecState σ) (Option Resp) :=
  giveCommand M fuel st (.raw "stb?")

/-- Spectrometer.getGrating: the comma-split response of "grat?", or the
    list [0, 0, 0] when anything inside the try block raises. -/
def getGrating {σ : Type} (M : Instr σ) (fuel : ℕ) (st : SpecState σ) :
    Res (SpecState σ) (List GIn) :=
  match giveCommand M fuel st (.raw "grat?") with
  | .ok st (some (.str s)) => .ok st ((pySplitSep ',' s).map GIn.str)
  | .ok st (some (.num _)) => .ok st [.int 0, .int 0, .int 0]
  | .ok st none => .ok st [.int 0, .int 0, .int 0]
  | .err _ st => .ok st [.int 0, .int 0, .int 0]
  | .spin st => .spin st

/-- Spectrometer.setGrating.  Note the unconditional final return 1: the
    function returns 1 whether the input was valid or not, and whether a
    command was issued or not.  The int() applied to the first field of
    the fresh grating query sits outside any try block, so a non-numeric
    field raises. -/
def setGrating {σ : Type} (M : Instr σ) (fuel : ℕ) (st : SpecState σ) (grat : GIn) :
    Res (SpecState σ) ℕ :=
  if validGratingInput grat then
    match pyInt grat with
    | none => .ok st 1
    | some g =>
      match getGrating M fuel st with
      | .spin st => .spin st
      | .err e st => .err e st
      | .ok st lst =>
        match pyInt (lst.headD (.int 0)) with
        | none => .err .valueError st
        | some cur =>
          if g ≠ cur then
            match giveCommand M fuel st (.raw ("grat " ++ pyStr grat)) with
            | .ok st _ => .ok st 1
            | .err e st => .err e st
            | .spin st => .spin st
          else .ok st 1
  else .ok st 1

/-- Spectrometer.getUnits: the response to "units?" when it is one of the
    three known unit strings, and the int 0 sentinel otherwise. -/
def getUnits {σ : Type} (M : Instr σ) (fuel : ℕ) (st : SpecState σ) :
    Res (SpecState σ) PyU :=
  match giveCommand M fuel st (.raw "units?") with
  | .ok st (some (.str u)) =>
    if u ∈ unitsList then .ok st (.str u) else .ok st .zero
  | .ok st _ => .ok st .zero
  | .err e st => .err e st
  | .spin st => .spin st

/-- Spectrometer.setUnits: lowercase the argument; a member of the unit
    list is sent, cached and acknowledged with 1, anything else returns 0
    with no command sent and the cache untouched. -/
def setUnits {σ : Type} (M : Instr σ) (fuel : ℕ) (st : SpecState σ) (uArg : String) :
    Res (SpecState σ) ℕ :=
  let u := pyLower uArg
  if u ∈ unitsList then
    match giveCommand M fuel st (.raw ("units " ++ u)) with
    | .ok st _ => .ok { st with unit := .str u } 1
    | .err e st => .err e st
    | .spin st => .spin st
  else .ok st 0

/-- The effective Spectrometer.setAuto: the second definition in the class
    body, which shadows the first.  It returns None on every path, both
    for a rejected non-bool argument and after a successful assignment. -/
def setAuto {σ : Type} (st : SpecState σ) (setTo : AIn) : SpecState σ × Option ℕ :=
  match setTo with
  | .bool b => ({ st with auto := b }, none)
  | .other => (st, none)

/-- The first, shadowed definition of setAuto (earlier in the class body):
    it would have returned 1 on success and 0 on a non-bool argument, but
    the later definition above replaces it. -/
def setAutoShadowed {σ : Type} (st : SpecState σ) (b : AIn) : SpecState σ × ℕ :=
  match b with
  | .bool v => ({ st with auto := v }, 1)
  | .other => (st, 0)

/-- Spectrometer.getWavelength: float() of the giveCommand("wave?") value,
    with every exception swallowed into the default 0. -/
def getWavelength {σ : Type} (M : Instr σ) (fuel : ℕ) (st : SpecState σ) :
    Res (SpecState σ) ℚ :=
  match giveCommand M fuel st (.raw "wave?") with
  | .ok st (some r) =>
    match respFloat r with
    | some q => .ok st q
    | none => .ok st 0
  | .ok st none => .ok st 0
  | .err _ st => .ok st 0
  | .spin st => .spin st

/-- Spectrometer.setWavelength.  With auto-grating enabled the target is
    first converted to nanometers and one of the three setGrating calls
    runs; then the current units are re-queried, the value is converted
    into them when the lowercased argument differs, and the move command
    "gowave " ++ str(value) is issued (the function itself returns None,
    here the value of the final giveCommand). -/
def setWavelength {σ : Type} (M : Instr σ) (fuel : ℕ) (st : SpecState σ)
    (wavelength : ℚ) (units : String) : Res (SpecState σ) (Option Resp) :=
  let go : SpecState σ → Res (SpecState σ) (Option Resp) := fun st =>
    (getUnits M fuel st).bind fun st curUnits =>
      match (if PyU.str (pyLower units) ≠ curUnits then
               convert wavelength (.str units) curUnits
             else some wavelength) with
      | none => .err .zeroDivisionError st
      | some w => giveCommand M fuel st (.gowave w)
  if st.auto then
    match convert wavelength (.str units) (.str "nm") with
    | none => .err .zeroDivisionError st
    | some nw =>
      (if nw < 430 then setGrating M fuel st (.int 1)
       else if nw > 625 then setGrating M fuel st (.int 3)
       else setGrating M fuel st (.int 2)).bind fun st _ => go st
  else go st

/-- One iteration of the interactive loop of spec_command.py: the operator
    line is forwarded verbatim to giveCommand. -/
def cliStep {σ : Type} (M : Instr σ) (fuel : ℕ) (st : SpecState σ) (cmd : String) :
    Res (SpecState σ) (Option Resp) :=
  giveCommand M fuel st (.raw cmd)

/-- State of the simulated instrument: the wavelength register written by
    the last move command, the number of status queries so far, and the
    log of every transmitted line, newest first. -/
structure SimSt where
  stored : ℚ
  polls : ℕ
  log : List Wire
deriving DecidableEq

/-- Behaviour table of the simulated instrument: the fixed responses to
    the unit and grating queries and the status-byte sequence. -/
structure SimCfg where
  unitsResp : String
  gratResp : String
  stb : ℕ → String

/-- The simulated instrument: a move command latches its payload into the
    wavelength register, a status query advances the status sequence, and
    read answers the most recently written query from the table (a
    wavelength query echoes the stored register back, which is exactly the
    premise of the calibration round-trip scenario). -/
def simInstr (cfg : SimCfg) : Instr SimSt where
  write st w :=
    match w with
    | .gowave q => { st with stored := q, log := w :: st.log }
    | .raw s =>
      { st with
        polls := if s = "stb?" then st.polls + 1 else st.polls
        log := w :: st.log }
  read st :=
    match st.log.head? with
    | some (.raw "units?") => .str cfg.unitsResp
    | some (.raw "grat?") => .str cfg.gratResp
    | some (.raw "wave?") => .num st.stored
    | some (.raw "stb?") => .str (cfg.stb (st.polls - 1))
    | _ => .str ""

/-- A status sequence that reports idle at once. -/
def okStatus : ℕ → String := fun _ => "00"

/-- Fresh device state. -/
def simInit : SimSt := { stored := 0, polls := 0, log := [] }

/-- Driver state as constructed against an instrument reporting "nm":
    the unit cache holds "nm" and auto-grating is off. -/
def stNM : SpecState SimSt := { dev := simInit, unit := .str "nm", auto := false }

/-- Instrument for the calibration round-trip scenario: reports unit "nm",
    idles immediately, and echoes the stored move target to "wave?". -/
def c1Cfg : SimCfg := { unitsResp := "nm", gratResp := "1,1200,500", stb := okStatus }

/-- Instrument for the auto-grating scenario: active grating reported as
    0 so that every selected grating differs and the command is issued. -/
def c3Cfg : SimCfg := { unitsResp := "nm", gratResp := "0,1200,500", stb := okStatus }

/-- Instrument whose status sequence is arbitrary; used for the motion
    wait analysis. -/
def c4Cfg (f : ℕ → String) : SimCfg :=
  { unitsResp := "nm", gratResp := "1,1200,500", stb := f }

/-- Instrument for the grating-selection scenario: active grating 2. -/
def c5Cfg : SimCfg := { unitsResp := "nm", gratResp := "2,1200,500", stb := okStatus }

/-- Instrument reporting an unrecognized unit string. -/
def c10Cfg : SimCfg := { unitsResp := "xyz", gratResp := "1,1200,500", stb := okStatus }

/-- C1: against a simulated instrument that reports unit "nm", latches the
    value transmitted by the move command (the requested v plus the fixed
    offset 73) and echoes that stored value to the wavelength query,
    setWavelength of v followed by getWavelength returns exactly the
    original v for every wavelength v, every initial register content and
    every positive poll budget: the move path adds 73 before transmission
    and the query path subtracts the same offset converted into the active
    unit. -/
theorem C1_calibration_roundtrip (v s0 : ℚ) (fuel : ℕ) :
    ((setWavelength (simInstr c1Cfg) (fuel + 1) ⟨⟨s0, 0, []⟩, .str "nm", false⟩ v "nm").bind
      (fun st _ => getWavelength (simInstr c1Cfg) (fuel + 1) st)).val? = some v := by
  have h : ((setWavelength (simInstr c1Cfg) (fuel + 1) ⟨⟨s0, 0, []⟩, .str "nm", false⟩ v "nm").bind
      (fun st _ => getWavelength (simInstr c1Cfg) (fuel + 1) st)).val?
      = some (v + 73 - 73) := rfl
  rw [h]
  norm_num

/-- C2: unit conversion is a round-trip identity: for every positive x and
    every pair of units A, B drawn from the three recognized units,
    converting x from A to B and back yields exactly x. -/
theorem C2_convert_roundtrip (x : ℚ) (A B : PyU)
    (hx : 0 < x)
    (hA : A ∈ [PyU.str "nm", PyU.str "um", PyU.str "wn"])
    (hB : B ∈ [PyU.str "nm", PyU.str "um", PyU.str "wn"]) :
    (convert x A B).bind (fun y => convert y B A) = some x := by
  have hx0 : x ≠ 0 := ne_of_gt hx
  fin_cases hA <;> fin_cases hB <;> simp [convert, hx0]

/-- Witness for C2 at x = 2, A = um, B = wn. -/
theorem C2_convert_roundtrip_witness :
    (0 : ℚ) < 2 ∧
      PyU.str "um" ∈ [PyU.str "nm", PyU.str "um", PyU.str "wn"] ∧
      PyU.str "wn" ∈ [PyU.str "nm", PyU.str "um", PyU.str "wn"] ∧
      (convert 2 (.str "um") (.str "wn")).bind
        (fun y => convert y (.str "wn") (.str "um")) = some 2 :=
  ⟨by norm_num, by decide, by decide,
    C2_convert_roundtrip 2 (.str "um") (.str "wn") (by norm_num) (by decide) (by decide)⟩

/-- C3: with auto-grating enabled, the target converted to nanometers
    drives the grating choice: the issued grating-select command carries
    grating (if nw below 430 then 1 else if nw above 625 then 3 else 2);
    in particular the boundary values 430 and 625 both select grating 2.
    The run uses the simulated instrument whose active grating is 0, so
    the selected grating always differs and the command is issued. -/
theorem C3_auto_grating_policy (w nw : ℚ) (A : String)
    (hconv : convert w (.str A) (.str "nm") = some nw) :
    Wire.raw ("grat " ++ toString (autoGrating nw)) ∈
      (setWavelength (simInstr c3Cfg) 1 ⟨simInit, .str "nm", true⟩ w A).state.dev.log ∧
    autoGrating 430 = 2 ∧ autoGrating 625 = 2 := by
  refine ⟨?_, by norm_num [autoGrating], by norm_num [autoGrating]⟩
  have hu : ∀ (s : ℚ) (p : ℕ) (l : List Wire) (un : PyU) (au : Bool),
      getUnits (simInstr c3Cfg) 1 ⟨⟨s, p, l⟩, un, au⟩ =
        .ok ⟨⟨s, p, .raw "units?" :: l⟩, un, au⟩ (.str "nm") := fun _ _ _ _ _ => rfl
  have hgo : ∀ (s : ℚ) (p : ℕ) (l : List Wire) (un : PyU) (au : Bool) (x : ℚ),
      giveCommand (simInstr c3Cfg) 1 ⟨⟨s, p, l⟩, un, au⟩ (.gowave x) =
        .ok ⟨⟨x + 73, p + 1, .raw "stb?" :: .gowave (x + 73) :: l⟩, un, au⟩ none :=
    fun _ _ _ _ _ _ => rfl
  have hpres : ∀ (s : ℚ) (p : ℕ) (l : List Wire) (un : PyU) (au : Bool) (e : Wire), e ∈ l →
      e ∈ ((getUnits (simInstr c3Cfg) 1 ⟨⟨s, p, l⟩, un, au⟩).bind fun st cur =>
            (match (if PyU.str (pyLower A) ≠ cur then convert w (.str A) cur
                    else some w) with
             | none => Res.err .zeroDivisionError st
             | some w2 => giveCommand (simInstr c3Cfg) 1 st (.gowave w2))).state.dev.log := by
    intro s p l un au e he
    rw [hu]
    simp only [Res.bind]
    split
    · simp [Res.state, he]
    · rw [hgo]
      simp [Res.state, he]
  have hbody : setWavelength (simInstr c3Cfg) 1 ⟨simInit, .str "nm", true⟩ w A =
      (match convert w (.str A) (.str "nm") with
       | none => .err .zeroDivisionError ⟨simInit, .str "nm", true⟩
       | some nw2 =>
         (if nw2 < 430 then setGrating (simInstr c3Cfg) 1 ⟨simInit, .str "nm", true⟩ (.int 1)
          else if nw2 > 625 then setGrating (simInstr c3Cfg) 1 ⟨simInit, .str "nm", true⟩ (.int 3)
          else setGrating (simInstr c3Cfg) 1 ⟨simInit, .str "nm", true⟩ (.int 2)).bind
           fun st _ =>
             (getUnits (simInstr c3Cfg) 1 st).bind fun st cur =>
               (match (if PyU.str (pyLower A) ≠ cur then convert w (.str A) cur
                       else some w) with
                | none => Res.err .zeroDivisionError st
                | some w2 => giveCommand (simInstr c3Cfg) 1 st (.gowave w2))) := rfl
  have hbody2 : setWavelength (simInstr c3Cfg) 1 ⟨simInit, .str "nm", true⟩ w A =
      (if nw < 430 then setGrating (simInstr c3Cfg) 1 ⟨simInit, .str "nm", true⟩ (.int 1)
       else if nw > 625 then setGrating (simInstr c3Cfg) 1 ⟨simInit, .str "nm", true⟩ (.int 3)
       else setGrating (simInstr c3Cfg) 1 ⟨simInit, .str "nm", true⟩ (.int 2)).bind
        fun st _ =>
          (getUnits (simInstr c3Cfg) 1 st).bind fun st cur =>
            (match (if PyU.str (pyLower A) ≠ cur then convert w (.str A) cur
                    else some w) with
             | none => Res.err .zeroDivisionError st
             | some w2 => giveCommand (simInstr c3Cfg) 1 st (.gowave w2)) := by
    rw [hbody, hconv]
  have hs1 : setGrating (simInstr c3Cfg) 1 ⟨simInit, .str "nm", true⟩ (.int 1) =
      .ok ⟨⟨0, 1, [.raw "stb?", .raw "grat 1", .raw "grat?"]⟩, .str "nm", true⟩ 1 := rfl
  have hs2 : setGrating (simInstr c3Cfg) 1 ⟨simInit, .str "nm", true⟩ (.int 2) =
      .ok ⟨⟨0, 1, [.raw "stb?", .raw "grat 2", .raw "grat?"]⟩, .str "nm", true⟩ 1 := rfl
  have hs3 : setGrating (simInstr c3Cfg) 1 ⟨simInit, .str "nm", true⟩ (.int 3) =
      .ok ⟨⟨0, 1, [.raw "stb?", .raw "grat 3", .raw "grat?"]⟩, .str "nm", true⟩ 1 := rfl
  by_cases h1 : nw < 430
  · have hag : autoGrating nw = 1 := by simp [autoGrating, h1]
    rw [hbody2, if_pos h1, hs1, hag]
    simp only [Res.bind]
    exact hpres _ _ _ _ _ _ (by decide)
  · by_cases h2 : nw > 625
    · have hag : autoGrating nw = 3 := by simp [autoGrating, h1, h2]
      rw [hbody2, if_neg h1, if_pos h2, hs3, hag]
      simp only [Res.bind]
      exact hpres _ _ _ _ _ _ (by decide)
    · have hag : autoGrating nw = 2 := by simp [autoGrating, h1, h2]
      rw [hbody2, if_neg h1, if_neg h2, hs2, hag]
      simp only [Res.bind]
      exact hpres _ _ _ _ _ _ (by decide)

/-- Witness for C3 at w = 400 nm: the issued command is "grat 1". -/
theorem C3_auto_grating_policy_witness :
    convert 400 (.str "nm") (.str "nm") = some 400 ∧
    (Wire.raw ("grat " ++ toString (autoGrating 400)) ∈
        (setWavelength (simInstr c3Cfg) 1 ⟨simInit, .str "nm", true⟩ 400 "nm").state.dev.log ∧
      autoGrating 430 = 2 ∧ autoGrating 625 = 2) :=
  ⟨rfl, C3_auto_grating_policy 400 400 "nm" rfl⟩

/-- Helper for C4: a poll loop fed a status sequence in which no element
    satisfies the exit test stays blocked at every fuel. -/
theorem pollWait_never_done (f : ℕ → String)
    (hf : ∀ k, statusDone (.str (f k)) = false) :
    ∀ (fuel : ℕ) (st : SpecState SimSt),
      (pollWait (simInstr (c4Cfg f)) fuel st).isSpin = true := by
  intro fuel
  induction fuel with
  | zero => intro st; rfl
  | succ n ih =>
    intro st
    simp only [pollWait, simInstr, c4Cfg]
    rw [if_neg]
    · exact ih _
    · simp [hf]

/-- C4: a non-query command (nonempty token list, not a wavelength move,
    not ending in the query marker) reads no response line: it enters the
    status poll, and when no status in the sequence ever equals "00" or
    contains "32", the call is still blocked at every poll budget; since
    the real loop carries no timeout or iteration bound, it never
    returns. -/
theorem C4_motion_wait_unbounded (f : ℕ → String) (s command : String) (rest : List String)
    (hf : ∀ k, ¬(f k = "00" ∨ contains32 (f k) = true))
    (hsplit : pySplit s = command :: rest)
    (hcmd : command ≠ "gowave")
    (hq : lastChar s ≠ '?') :
    ∀ (fuel : ℕ) (st : SpecState SimSt),
      (giveCommand (simInstr (c4Cfg f)) fuel st (.raw s)).isSpin = true := by
  have hf2 : ∀ k, statusDone (.str (f k)) = false := by
    intro k
    have := hf k
    push_neg at this
    simp [statusDone, this.1, this.2]
  intro fuel st
  simp only [giveCommand, hsplit]
  rw [if_neg hcmd, if_neg hq]
  exact pollWait_never_done f hf2 fuel _

/-- Witness for C4: the command "grat 2" against the constant status
    sequence "01" is still blocked after five polls. -/
theorem C4_motion_wait_unbounded_witness :
    (giveCommand (simInstr (c4Cfg fun _ => "01")) 5 stNM (.raw "grat 2")).isSpin = true :=
  C4_motion_wait_unbounded (fun _ => "01") "grat 2" "grat" ["2"]
    (fun k => by show ¬("01" = "00" ∨ contains32 "01" = true); decide)
    (by decide) (by decide) (by decide) 5 stNM

/-- C5 counterexample: the claim that invalid input is reported via the
    return value is false: setGrating returns the same success indicator 1
    for the invalid input 0 (with no command issued and the state
    untouched) as for the valid input 3. -/
theorem C5_counterexample :
    setGrating (simInstr c5Cfg) 1 stNM (.int 0) = .ok stNM 1 ∧
    (setGrating (simInstr c5Cfg) 1 stNM (.int 3)).val? = some 1 := ⟨rfl, rfl⟩

/-- C5 amended: for input that is not integer-convertible or whose integer
    value lies outside the range 1 to 3, no command at all is issued (the
    state is unchanged); for valid input equal to the freshly queried
    active grating (2 in this simulation) only the fresh query is issued
    and no select command; for a valid integer differing from the active
    grating the select command is issued; but the return value is 1 in
    every case, so invalid input is not reported via the return value. -/
theorem C5_amended_setGrating (g : GIn) :
    (pyInt g = none → setGrating (simInstr c5Cfg) 1 stNM g = .ok stNM 1) ∧
    (∀ n : ℤ, pyInt g = some n → ¬(0 < n ∧ n < 4) →
        setGrating (simInstr c5Cfg) 1 stNM g = .ok stNM 1) ∧
    (pyInt g = some 2 →
        setGrating (simInstr c5Cfg) 1 stNM g =
          .ok ⟨⟨0, 0, [.raw "grat?"]⟩, .str "nm", false⟩ 1) ∧
    (∀ n : ℤ, 0 < n → n < 4 → n ≠ 2 →
        (setGrating (simInstr c5Cfg) 1 stNM (.int n)).val? = some 1 ∧
        Wire.raw ("grat " ++ toString n) ∈
          (setGrating (simInstr c5Cfg) 1 stNM (.int n)).state.dev.log) := by
  refine ⟨?_, ?_, ?_, ?_⟩
  · intro h
    simp [setGrating, validGratingInput, h]
  · intro n h hn
    have hb : validGratingInput g = false := by
      simp [validGratingInput, h]
      omega
    simp [setGrating, hb]
  · intro h
    unfold setGrating validGratingInput
    rw [h]
    norm_num
    rfl
  · intro n h1 h2 h3
    interval_cases n
    · exact ⟨rfl, by decide⟩
    · omega
    · exact ⟨rfl, by decide⟩

/-- Witness for C5 amended at the inputs "abc" (not convertible), 9 (out
    of range), 2 (equal to the active grating) and 3 (differing). -/
theorem C5_amended_setGrating_witness :
    (pyInt (GIn.str "abc") = none ∧
      setGrating (simInstr c5Cfg) 1 stNM (.str "abc") = .ok stNM 1) ∧
    (pyInt (GIn.int 9) = some 9 ∧
      setGrating (simInstr c5Cfg) 1 stNM (.int 9) = .ok stNM 1) ∧
    (pyInt (GIn.int 2) = some 2 ∧
      setGrating (simInstr c5Cfg) 1 stNM (.int 2) =
        .ok ⟨⟨0, 0, [.raw "grat?"]⟩, .str "nm", false⟩ 1) ∧
    ((setGrating (simInstr c5Cfg) 1 stNM (.int 3)).val? = some 1 ∧
      Wire.raw ("grat " ++ toString (3 : ℤ)) ∈
        (setGrating (simInstr c5Cfg) 1 stNM (.int 3)).state.dev.log) :=
  ⟨⟨rfl, (C5_amended_setGrating (.str "abc")).1 rfl⟩,
   ⟨rfl, (C5_amended_setGrating (.int 9)).2.1 9 rfl (by omega)⟩,
   ⟨rfl, (C5_amended_setGrating (.int 2)).2.2.1 rfl⟩,
   (C5_amended_setGrating (.int 3)).2.2.2 3 (by norm_num) (by norm_num) (by norm_num)⟩

/-- C6: a string whose lowercase form is a recognized unit causes the
    unit-select command to be sent, the cache to be updated to the
    lowercase form and 1 to be returned; any other string causes no
    command, no state change and the return value 0. -/
theorem C6_setUnits_validation (u : String) :
    (pyLower u ∈ unitsList →
      setUnits (simInstr c1Cfg) 1 stNM u =
        .ok ⟨⟨0, 1, [.raw "stb?", .raw ("units " ++ pyLower u)]⟩, .str (pyLower u), false⟩ 1) ∧
    (pyLower u ∉ unitsList → setUnits (simInstr c1Cfg) 1 stNM u = .ok stNM 0) := by
  constructor
  · intro h
    simp only [unitsList, List.mem_cons, List.not_mem_nil, or_false] at h
    rcases h with h | h | h <;>
      · unfold setUnits
        rw [h]
        rfl
  · intro h
    simp [setUnits, h]

/-- Witness for C6 at the accepted input "UM" and the rejected input
    "bogus". -/
theorem C6_setUnits_validation_witness :
    (pyLower "UM" ∈ unitsList ∧
      setUnits (simInstr c1Cfg) 1 stNM "UM" =
        .ok ⟨⟨0, 1, [.raw "stb?", .raw ("units " ++ pyLower "UM")]⟩,
          .str (pyLower "UM"), false⟩ 1) ∧
    (pyLower "bogus" ∉ unitsList ∧
      setUnits (simInstr c1Cfg) 1 stNM "bogus" = .ok stNM 0) :=
  ⟨⟨by decide, (C6_setUnits_validation "UM").1 (by decide)⟩,
   ⟨by decide, (C6_setUnits_validation "bogus").2 (by decide)⟩⟩

/-- C7: a conversion whose source unit is wavenumbers with input 0, and a
    conversion whose target is wavenumbers reached with a zero nanometer
    intermediate, both fail with the detected division error (a raised
    ZeroDivisionError, modelled as none) instead of producing a value. -/
theorem C7_zero_division_detected (u c : PyU) :
    convert 0 (.str "wn") c = none ∧ convert 0 u (.str "wn") = none := by
  constructor
  · simp [convert]
  · by_cases h1 : u = PyU.str "um"
    · subst h1; simp [convert]
    · by_cases h2 : u = PyU.str "wn"
      · subst h2; simp [convert]
      · simp [convert, h1, h2]

/-- C8 counterexample: the claim that a non-bool argument is reported via
    a sentinel failure return value is false for the effective (second)
    setAuto: it returns None for the rejected non-bool argument and the
    same None for a successful bool argument, so the return value reports
    nothing (the flag is indeed left unchanged). -/
theorem C8_counterexample :
    (setAuto stNM AIn.other).2 = none ∧ (setAuto stNM (AIn.bool true)).2 = none ∧
      (setAuto stNM AIn.other).1 = stNM := ⟨rfl, rfl, rfl⟩

/-- C8 amended: the effective setAuto leaves the flag unchanged on a
    non-bool argument and sets it on a bool argument, without raising, but
    returns None in both cases, so the invalid type is not reported via
    the return value. -/
theorem C8_amended_setAuto {σ : Type} (st : SpecState σ) (b : Bool) :
    setAuto st (AIn.bool b) = ({ st with auto := b }, none) ∧
      setAuto st AIn.other = (st, none) := ⟨rfl, rfl⟩

/-- Helper for C9: the Python split of an all-whitespace character list is
    empty. -/
theorem ws_only_split (l : List Char) (h : ∀ c ∈ l, c.isWhitespace = true) :
    wsSplitAux l [] = [] := by
  induction l with
  | nil => rfl
  | cons c cs ih =>
    have hc := h c (List.mem_cons_self c cs)
    simp [wsSplitAux, hc]
    exact ih fun x hx => h x (List.mem_cons_of_mem c hx)

/-- C9: a CLI iteration forwarding an empty or whitespace-only operator
    line to giveCommand raises IndexError (the unguarded first-token
    index) before anything is transmitted: the device state is returned
    untouched. -/
theorem C9_blank_command_crashes {σ : Type} (M : Instr σ) (fuel : ℕ) (st : SpecState σ)
    (s : String) (h : ∀ c ∈ s.data, c.isWhitespace = true) :
    cliStep M fuel st s = .err .indexError st := by
  have hs : pySplit s = [] := by
    simp [pySplit, ws_only_split s.data h]
  simp [cliStep, giveCommand, hs]

/-- Witness for C9 at the empty line and a three-space line. -/
theorem C9_blank_command_crashes_witness :
    cliStep (simInstr c1Cfg) 1 stNM "" = .err .indexError stNM ∧
      cliStep (simInstr c1Cfg) 1 stNM "   " = .err .indexError stNM :=
  ⟨C9_blank_command_crashes _ 1 stNM "" (by decide),
   C9_blank_command_crashes _ 1 stNM "   " (by decide)⟩

/-- C10: convert performs no unit validation: every source unit other than
    "um" and "wn" behaves as nanometers, and every target other than "nm"
    and "um" behaves as wavenumbers, returning ten million divided by the
    nanometer value; against an instrument reporting an unrecognized unit
    string, getUnits returns the 0 sentinel, and setWavelength therefore
    converts the requested value into wavenumbers (plus the offset 73)
    before issuing the move command. -/
theorem C10_unit_fallthrough :
    (∀ (w : ℚ) (u c : PyU), u ≠ .str "um" → u ≠ .str "wn" →
        convert w u c = convert w (.str "nm") c) ∧
    (∀ (w : ℚ) (c : PyU), c ≠ .str "nm" → c ≠ .str "um" → w ≠ 0 →
        convert w (.str "nm") c = some (10 ^ 7 / w)) ∧
    (getUnits (simInstr c10Cfg) 1 stNM).val? = some PyU.zero ∧
    (∀ w : ℚ, w ≠ 0 →
        Wire.gowave (10 ^ 7 / w + 73) ∈
          (setWavelength (simInstr c10Cfg) 1 stNM w "nm").state.dev.log) := by
  refine ⟨?_, ?_, rfl, ?_⟩
  · intro w u c h1 h2
    simp [convert, h1, h2]
  · intro w c h1 h2 h0
    simp [convert, h1, h2, h0]
  · intro w h0
    have run : setWavelength (simInstr c10Cfg) 1 stNM w "nm" =
        .ok ⟨⟨10 ^ 7 / w + 73, 1, [.raw "stb?", .gowave (10 ^ 7 / w + 73), .raw "units?"]⟩,
          .str "nm", false⟩ none := by
      calc setWavelength (simInstr c10Cfg) 1 stNM w "nm"
          = (match (if w = 0 then (none : Option ℚ) else some (10 ^ 7 / w)) with
             | none => .err .zeroDivisionError
                 ⟨⟨0, 0, [.raw "units?"]⟩, .str "nm", false⟩
             | some w2 => giveCommand (simInstr c10Cfg) 1
                 ⟨⟨0, 0, [.raw "units?"]⟩, .str "nm", false⟩ (.gowave w2)) := rfl
        _ = _ := by rw [if_neg h0]; rfl
    rw [run]
    simp [Res.state]

/-- Witness for C10 at the unrecognized units "abc" for the source and the
    0 sentinel for the target, and the move at 500 with a nonzero value. -/
theorem C10_unit_fallthrough_witness :
    convert 5 (.str "abc") PyU.zero = convert 5 (.str "nm") PyU.zero ∧
    convert 5 (.str "nm") PyU.zero = some (10 ^ 7 / 5) ∧
    Wire.gowave (10 ^ 7 / 500 + 73) ∈
      (setWavelength (simInstr c10Cfg) 1 stNM 500 "nm").state.dev.log :=
  ⟨C10_unit_fallthrough.1 5 (.str "abc") PyU.zero (by decide) (by decide),
   C10_unit_fallthrough.2.1 5 PyU.zero (by decide) (by decide) (by norm_num),
   C10_unit_fallthrough.2.2.2 500 (by norm_num)⟩

end Spectro
